import Mathlib

/-!
Shallow embedding of the request-lifecycle and statistics subsystem of
firewood/mcrouter (files `mcrouter/ProxyRequestContext-inl.h` and
`mcrouter/stats.cpp`), together with theorems settling the frozen claims
about it.

Conventions:
* C `uint64_t` counters are modelled as `Nat`, with `% 2^64` applied where
  overflow can occur; `double` is modelled as `ℚ`; fallible reads return
  structured results.
* Per-shard state (`Proxy`) carries the counter table, the windowed
  (`stats_num_within_window`) counters and the ring of bins (`stats_bin`),
  mirroring the fields the source reads.
-/

namespace Mcrouter

/-- Modulus of a C `uint64_t`. -/
def U64MOD : Nat := 2 ^ 64

/-- Result codes of the external memcache protocol library (`mc_res_t`).
Only the constructors this repository's code mentions are named; all other
codes are `other n`. -/
inductive McRes where
  | unknown
  | ok
  | local_error
  | client_error
  | bad_command
  | other (n : Nat)
deriving DecidableEq, Repr

/-- Request kinds distinguished by `precheckRequest` overloads in
`ProxyRequestContext-inl.h`.  A generic request carries the verdict of the
external `isKeyValid` check (`true` iff `mc_req_err_valid`), since the key
validator itself is outside this repository. -/
inductive RequestKind where
  | generic (keyValid : Bool)
  | statsReq
  | versionReq
  | shutdownReq
  | flushReReq
  | flushAllReq
deriving DecidableEq, Repr

/-- The six per-shard result-classification counters touched by
`ProxyRequestContextTyped<Request>::sendReply`. -/
structure ReplyStats where
  request_replied : Nat
  request_replied_count : Nat
  request_error : Nat
  request_error_count : Nat
  request_success : Nat
  request_success_count : Nat
deriving DecidableEq, Repr

/-- `stat_incr(stats, name, 1)` on one of the reply counters. -/
def ReplyStats.zero : ReplyStats := ⟨0, 0, 0, 0, 0, 0⟩

/-- The slice of a `Proxy` that the request context reads:
the teardown flag, the flush-command option, and the reply counters. -/
structure ProxyCtxView where
  being_destroyed : Bool
  enable_flush_cmd : Bool
  stats : ReplyStats
deriving DecidableEq, Repr

/-- State of one `ProxyRequestContextTyped`: the recording-mode flag, the
write-once `replied_` flag, the stored request (`req_`, released on reply),
the owning proxy view, and the trace of result codes delivered to the
completion callback by `sendReplyImpl` (each entry is one callback
invocation). -/
structure Ctx where
  recording : Bool
  replied : Bool
  req : Option RequestKind
  proxy : ProxyCtxView
  sentReplies : List McRes
deriving DecidableEq, Repr

/-- `ProxyRequestContextTyped<Request>::sendReply` (lines 116–139 of
`ProxyRequestContext-inl.h`).  `isErr` is the external classifier
`mc_res_is_err`.  Returns silently if in recording mode or already
replied; otherwise sets `replied_`, invokes the completion callback,
releases `req_`, and bumps the shard counters: total replied pair always,
then exactly one of the error pair / success pair according to
`mc_res_is_err(result)`. -/
def sendReply (isErr : McRes → Bool) (c : Ctx) (result : McRes) : Ctx :=
  if c.recording then c
  else if c.replied then c
  else
    let s := c.proxy.stats
    let s := { s with
      request_replied := s.request_replied + 1
      request_replied_count := s.request_replied_count + 1 }
    let s :=
      if isErr result then
        { s with
          request_error := s.request_error + 1
          request_error_count := s.request_error_count + 1 }
      else
        { s with
          request_success := s.request_success + 1
          request_success_count := s.request_success_count + 1 }
    { c with
      replied := true
      req := none
      sentReplies := c.sentReplies ++ [result]
      proxy := { c.proxy with stats := s } }

/-- `detail::precheckRequest` (all overloads, lines 48–111): returns
`true` if the request is valid, otherwise replies with the corresponding
fixed error and returns `false`.  The generic overload calls
`precheckKey`, which replies `mc_res_local_error` when the key is
invalid; `McShutdownRequest` gets `mc_res_bad_command`; `McFlushReRequest`
gets `mc_res_local_error`; `McFlushAllRequest` gets `mc_res_local_error`
when the flush command is disabled. -/
def precheckRequest (isErr : McRes → Bool) (c : Ctx) (req : RequestKind) :
    Ctx × Bool :=
  match req with
  | .generic keyValid =>
      if keyValid then (c, true)
      else (sendReply isErr c .local_error, false)
  | .statsReq => (c, true)
  | .versionReq => (c, true)
  | .shutdownReq => (sendReply isErr c .bad_command, false)
  | .flushReReq => (sendReply isErr c .local_error, false)
  | .flushAllReq =>
      if c.proxy.enable_flush_cmd then (c, true)
      else (sendReply isErr c .local_error, false)

/-- `ProxyRequestContextTyped<Request>::startProcessing` (lines 142–159).
Runs the precheck; on success, if the proxy is being destroyed, replies
`mc_res_unknown` without dispatching, otherwise hands the request to
`dispatchRequest`.  The returned `Bool` records whether
`dispatchRequest` was invoked. -/
def startProcessing (isErr : McRes → Bool) (c : Ctx) : Ctx × Bool :=
  match c.req with
  | none => (c, false)
  | some req =>
    let (c, ok) := precheckRequest isErr c req
    if !ok then (c, false)
    else if c.proxy.being_destroyed then
      (sendReply isErr c .unknown, false)
    else (c, true)

/-! ### Per-shard counter tables and windowed bins (`stats.cpp`) -/

/-- `stat_t::type` (value kind tag). -/
inductive StatType where
  | stat_string
  | stat_uint64
  | stat_int64
  | stat_double
deriving DecidableEq, Repr

/-- The `stat_t::data` union, made explicit. -/
inductive StatData where
  | uint64 (v : Nat)
  | int64 (v : Int)
  | dbl (v : ℚ)
  | string (s : String)
deriving DecidableEq, Repr

/-- Read `.data.uint64` (meaningful only on `stat_uint64` slots). -/
def StatData.getU64 : StatData → Nat
  | .uint64 v => v
  | _ => 0

/-- Read `.data.int64`. -/
def StatData.getI64 : StatData → Int
  | .int64 v => v
  | _ => 0

/-- Read `.data.dbl`. -/
def StatData.getDbl : StatData → ℚ
  | .dbl v => v
  | _ => 0

/-- Static metadata of one stat slot, as populated by `init_stats` from the
static table (`stat_list.h`, external to the files under study): name,
category bitmask (`group`), value kind (`type`), cross-shard aggregation
flag, and the initial value. -/
structure StatDef where
  name : String
  group : Nat
  type : StatType
  aggregate : Bool
  init : StatData
deriving DecidableEq, Repr

/-- One shard's view of one destination, as read from `ProxyDestination`
and its health tracker in the server-stats fold (lines 576–601 of
`stats.cpp`): knockout flags from the tracker, the optional result-code
histogram, the connection state, the optional rolling latency, the
retransmission ratio (negative meaning "no sample"), and the queue
counts.  `mc_nres` and the number of `ProxyDestination::State` values
live outside the files under study, so the histograms are sized by the
data rather than by fixed constants. -/
structure DestView where
  isHardTko : Bool
  isSoftTko : Bool
  results : Option (List Nat)
  state : Nat
  avgLatency : Option ℚ
  retransPerKByte : ℚ
  pendingRequestCount : Nat
  inflightRequestCount : Nat
deriving DecidableEq, Repr

/-- The slice of a `Proxy` that the statistics engine reads: the counter
table (`stats`), the per-slot deltas of the current window
(`stats_num_within_window`), the ring of bins (`stats_bin`, indexed by
slot then bin), how many bins have rotated (`num_bins_used`), and the
fiber/scheduler gauges read by `prepare_stats`. -/
structure ProxyStats where
  stats : Nat → StatData
  stats_num_within_window : Nat → Nat
  stats_bin : Nat → Nat → Nat
  num_bins_used : Nat
  fibersAllocated : Nat
  fibersPoolSize : Nat
  stackHighWatermark : Nat
  durationUs : ℚ
  queueNotifyPeriod : ℚ
  destinations : List (String × DestView)

/-- The slice of `McrouterInstanceBase` the statistics engine reads: the
per-shard states (`opts().num_proxies` is their number, `getProxy i` the
`i`-th) plus the router-wide facts `prepare_stats` queries. -/
structure RouterStats where
  proxies : List ProxyStats
  suspectServersCount : Nat
  suspectServers : List (String × Bool × Nat)
  startTime : Nat
  lastConfigAttempt : Nat
  configFailures : Nat

/-- `router.opts().num_proxies`. -/
def RouterStats.num_proxies (r : RouterStats) : Nat := r.proxies.length

/-- `router.getProxy(i)` (vacuous default past the end, never reached by
the loops, which run `i < num_proxies`). -/
def RouterStats.getProxy (r : RouterStats) (i : Nat) : ProxyStats :=
  r.proxies.getD i
    ⟨fun _ => .uint64 0, fun _ => 0, fun _ _ => 0, 0, 0, 0, 0, 0, 0, []⟩

/-- `get_num_bins_used` (lines 119–127): the bin count of shard 0 when at
least one shard exists, else 0. -/
def get_num_bins_used (router : RouterStats) : Nat :=
  if router.num_proxies > 0 then (router.getProxy 0).num_bins_used else 0

/-- `stats_aggregate_rate_value` (lines 161–174): if any bin has rotated,
the cross-shard sum of within-window deltas divided by the window length,
else 0.  `binSize` stands for the constant
`MOVING_AVERAGE_BIN_SIZE_IN_SECOND` (defined outside the files under
study). -/
def stats_aggregate_rate_value (binSize : ℚ) (router : RouterStats)
    (idx : Nat) : ℚ :=
  let num_bins_used := get_num_bins_used router
  if num_bins_used ≠ 0 then
    let num := ((List.range router.num_proxies).map
      (fun i => (router.getProxy i).stats_num_within_window idx)).sum % U64MOD
    (num : ℚ) / (num_bins_used * binSize)
  else 0

/-- `stats_rate_value` (lines 129–143): 0 when this shard has no rotated
bin; otherwise the aggregate rate for aggregatable slots, or this shard's
own windowed delta over the window length. -/
def stats_rate_value (binSize : ℚ) (defs : Nat → StatDef)
    (router : RouterStats) (proxy : ProxyStats) (idx : Nat) : ℚ :=
  if proxy.num_bins_used ≠ 0 then
    if (defs idx).aggregate then
      stats_aggregate_rate_value binSize router idx
    else
      (proxy.stats_num_within_window idx : ℚ) /
        (proxy.num_bins_used * binSize)
  else 0

/-- `stats_aggregate_max_value` (lines 176–191): for each used bin, sum
that bin's value across all shards; report the largest such per-bin
cross-shard sum. -/
def stats_aggregate_max_value (router : RouterStats) (idx : Nat) : Nat :=
  (List.range (get_num_bins_used router)).foldl
    (fun max j =>
      let binSum := ((List.range router.num_proxies).map
        (fun i => (router.getProxy i).stats_bin idx j)).sum % U64MOD
      Nat.max max binSum)
    0

/-- `stats_aggregate_max_max_value` (lines 193–205): the largest single
(shard, bin) value across all shards and used bins. -/
def stats_aggregate_max_max_value (router : RouterStats) (idx : Nat) : Nat :=
  (List.range (get_num_bins_used router)).foldl
    (fun max j =>
      (List.range router.num_proxies).foldl
        (fun max i => Nat.max max ((router.getProxy i).stats_bin idx j))
        max)
    0

/-- `stats_max_value` (lines 145–147). -/
def stats_max_value (router : RouterStats) (idx : Nat) : Nat :=
  stats_aggregate_max_value router idx

/-! ### Per-destination aggregation (`ServerStat`, lines 66–117 and
571–607 of `stats.cpp`) -/

/-- The `ServerStat` accumulator (lines 66–78): histograms, knockout
flags, latency and retransmission running sums, queue counts. -/
structure ServerStat where
  results : Nat → Nat
  states : Nat → Nat
  isHardTko : Bool
  isSoftTko : Bool
  sumLatencies : ℚ
  cntLatencies : Nat
  pendingRequestsCount : Nat
  inflightRequestsCount : Nat
  sumRetransPerKByte : ℚ
  cntRetransPerKByte : Nat
  maxRetransPerKByte : ℚ
  minRetransPerKByteTop : Bool
  minRetransPerKByteVal : ℚ

/-- The default-constructed `ServerStat` that `serverStats[key]` creates on
first access: all zeros, `min` at `+infinity` (modelled by the
`minRetransPerKByteTop` flag since `ℚ` has no infinity). -/
def ServerStat.empty : ServerStat :=
  ⟨fun _ => 0, fun _ => 0, false, false, 0, 0, 0, 0, 0, 0, 0, true, 0⟩

/-- `min` against the running minimum, where `minRetransPerKByteTop` marks
the initial `+infinity`. -/
def ServerStat.minRetrans (s : ServerStat) (v : ℚ) : Bool × ℚ :=
  if s.minRetransPerKByteTop then (false, v)
  else (false, min s.minRetransPerKByteVal v)

/-- One step of the per-destination fold (the lambda at lines 576–601):
the knockout flags are **assigned** from this shard's tracker view,
result counts are added, the state histogram is bumped, latency and
retransmission samples accumulate, and the queue counts are added. -/
def ServerStat.update (s : ServerStat) (v : DestView) : ServerStat :=
  let s := { s with isHardTko := v.isHardTko, isSoftTko := v.isSoftTko }
  let s :=
    match v.results with
    | some rs =>
        { s with results := fun j => (s.results j + rs.getD j 0) % U64MOD }
    | none => s
  let s := { s with states := fun j =>
    if j = v.state then s.states j + 1 else s.states j }
  let s :=
    match v.avgLatency with
    | some lat => { s with sumLatencies := s.sumLatencies + lat,
                           cntLatencies := s.cntLatencies + 1 }
    | none => s
  let s :=
    if v.retransPerKByte ≥ 0 then
      let m := s.minRetrans v.retransPerKByte
      { s with
        sumRetransPerKByte := s.sumRetransPerKByte + v.retransPerKByte
        maxRetransPerKByte := max s.maxRetransPerKByte v.retransPerKByte
        minRetransPerKByteTop := m.1
        minRetransPerKByteVal := m.2
        cntRetransPerKByte := s.cntRetransPerKByte + 1 }
    else s
  { s with
    pendingRequestsCount := s.pendingRequestsCount + v.pendingRequestCount
    inflightRequestsCount := s.inflightRequestsCount + v.inflightRequestCount }

/-- The whole server-stats fold of `stats_reply` (lines 571–603): the
observations are the (key, destination-view) pairs visited, in order —
shard 0's destinations first, then shard 1's, and so on.  The result maps
each key to its accumulated `ServerStat` (`serverStats[key]`
default-constructs on first access). -/
def buildServerStats (obs : List (String × DestView)) :
    String → ServerStat :=
  obs.foldl
    (fun m kv => fun k =>
      if k = kv.1 then (m kv.1).update kv.2 else m k)
    (fun _ => ServerStat.empty)

/-! ### Process-status parsing (`get_proc_stat`, lines 276–330) -/

/-- `proc_stat_data_t` (lines 152–159). -/
structure ProcStatData where
  num_minor_faults : Nat
  num_major_faults : Nat
  user_time_sec : ℚ
  system_time_sec : ℚ
  vsize : Nat
  rss : Nat
deriving DecidableEq, Repr

/-- The all-zero record written before any read is attempted
(lines 277–282). -/
def ProcStatData.zero : ProcStatData := ⟨0, 0, 0, 0, 0, 0⟩

/-- What the OS presents at `/proc/<pid>/stat`: whether `fopen` succeeds,
and the values `fscanf` assigns, in conversion order (assignments stop at
the first failing conversion, and `fscanf` returns how many were made).
The six relevant conversions are minor faults, major faults, utime ticks,
stime ticks, vsize, and rss pages (the last is signed). -/
structure ProcFile where
  openable : Bool
  assigned : List Int

/-- Host facts used by the conversion: `sysconf(_SC_CLK_TCK)` and
`sysconf(_SC_PAGESIZE)`. -/
structure HostConf where
  clkTck : ℚ
  pageSize : Nat

/-- `get_proc_stat` (lines 276–330).  Zeroes every field of `data`
up front; returns `-1` if the file cannot be opened or fewer than six
fields convert — in the latter case the fields already assigned by
`fscanf` keep their parsed values.  On success converts tick counts to
seconds and clamps a negative rss to zero before scaling to bytes. -/
def get_proc_stat (host : HostConf) (file : ProcFile) :
    Int × ProcStatData :=
  let data := ProcStatData.zero
  if ¬file.openable then (-1, data)
  else
    let a := file.assigned
    let data := { data with
      num_minor_faults := if h : 0 < a.length then (a.get ⟨0, h⟩).toNat % U64MOD
                          else data.num_minor_faults
      num_major_faults := if h : 1 < a.length then (a.get ⟨1, h⟩).toNat % U64MOD
                          else data.num_major_faults
      vsize := if h : 4 < a.length then (a.get ⟨4, h⟩).toNat % U64MOD
               else data.vsize }
    let count := min a.length 6
    if count ≠ 6 then (-1, data)
    else
      let utime_ticks : Nat := (a.getD 2 0).toNat % U64MOD
      let stime_ticks : Nat := (a.getD 3 0).toNat % U64MOD
      let rss_pages : Int := a.getD 5 0
      let data := { data with
        user_time_sec := (utime_ticks : ℚ) / host.clkTck
        system_time_sec := (stime_ticks : ℚ) / host.clkTck
        rss := if rss_pages < 0 then 0
               else (rss_pages.toNat * host.pageSize) % U64MOD }
      (0, data)

/-! ### Stat categories and slot identifiers

The category bitmask constants and the slot enumeration come from
`stats.h` / `stat_list.h`, which are not among the files under study;
they are modelled from the spec ("tagged with a category bitmask", "a
fixed-size, enumerated array of typed counters").  Each base group gets a
distinct bit, `all_stats` covers every ordinary group, and
`unknown_stats` is a sentinel distinct from the value of every
recognized token.  Slot identifiers are distinct indices. -/

/-- Modelled from the spec: category bit for the default (empty-token)
group. -/
def mcproxy_stats : Nat := 0x1

def detailed_stats : Nat := 0x2

def cmd_all_stats : Nat := 0x4

def cmd_in_stats : Nat := 0x8

def cmd_out_stats : Nat := 0x10

def cmd_error_stats : Nat := 0x20

def ods_stats : Nat := 0x40

def timer_stats : Nat := 0x80

def rate_stats : Nat := 0x100

def count_stats : Nat := 0x200

def max_stats : Nat := 0x400

def max_max_stats : Nat := 0x800

def server_stats : Nat := 0x1000

def suspect_server_stats : Nat := 0x2000

def outlier_stats : Nat := 0x4000

def all_stats : Nat := 0x7fff

def unknown_stats : Nat := 0x10000

/-- Modelled from the spec: slot identifiers of the stats named by
`prepare_stats`, distinct indices from the static table's enumeration. -/
def config_last_success_stat : Nat := 0

def destination_batches_sum_stat : Nat := 1

def destination_requests_sum_stat : Nat := 2

def outstanding_route_get_reqs_queued_stat : Nat := 3

def outstanding_route_get_reqs_queued_helper_stat : Nat := 4

def outstanding_route_get_wait_time_sum_us_stat : Nat := 5

def outstanding_route_update_reqs_queued_stat : Nat := 6

def outstanding_route_update_reqs_queued_helper_stat : Nat := 7

def outstanding_route_update_wait_time_sum_us_stat : Nat := 8

def retrans_per_kbyte_sum_stat : Nat := 9

def retrans_num_total_stat : Nat := 10

def num_suspect_servers_stat : Nat := 11

def destination_batch_size_stat : Nat := 12

def retrans_per_kbyte_avg_stat : Nat := 13

def outstanding_route_get_avg_queue_size_stat : Nat := 14

def outstanding_route_get_avg_wait_time_sec_stat : Nat := 15

def outstanding_route_update_avg_queue_size_stat : Nat := 16

def outstanding_route_update_avg_wait_time_sec_stat : Nat := 17

def commandargs_stat : Nat := 18

def time_stat : Nat := 19

def start_time_stat : Nat := 20

def uptime_stat : Nat := 21

def config_age_stat : Nat := 22

def config_last_attempt_stat : Nat := 23

def config_failures_stat : Nat := 24

def pid_stat : Nat := 25

def parent_pid_stat : Nat := 26

def rusage_user_stat : Nat := 27

def rusage_system_stat : Nat := 28

def ps_num_minor_faults_stat : Nat := 29

def ps_num_major_faults_stat : Nat := 30

def ps_user_time_sec_stat : Nat := 31

def ps_system_time_sec_stat : Nat := 32

def ps_rss_stat : Nat := 33

def ps_vsize_stat : Nat := 34

def fibers_allocated_stat : Nat := 35

def fibers_pool_size_stat : Nat := 36

def fibers_stack_high_watermark_stat : Nat := 37

def duration_us_stat : Nat := 38

def client_queue_notify_period_stat : Nat := 39

/-- The slot indices written by `prepare_stats` before its final
aggregation loop. -/
def specialAssignedIds : List Nat :=
  [num_suspect_servers_stat, destination_batch_size_stat,
   retrans_per_kbyte_avg_stat,
   outstanding_route_get_avg_queue_size_stat,
   outstanding_route_get_avg_wait_time_sec_stat,
   outstanding_route_update_avg_queue_size_stat,
   outstanding_route_update_avg_wait_time_sec_stat,
   commandargs_stat, time_stat, start_time_stat, uptime_stat,
   config_age_stat, config_last_success_stat, config_last_attempt_stat,
   config_failures_stat, pid_stat, parent_pid_stat, rusage_user_stat,
   rusage_system_stat, ps_num_minor_faults_stat, ps_num_major_faults_stat,
   ps_user_time_sec_stat, ps_system_time_sec_stat, ps_rss_stat,
   ps_vsize_stat, fibers_allocated_stat, fibers_pool_size_stat,
   fibers_stack_high_watermark_stat, duration_us_stat,
   client_queue_notify_period_stat]

/-! ### `prepare_stats` (lines 332–478 of `stats.cpp`) -/

/-- Write one slot of a counter table. -/
def setStat (t : Nat → StatData) (i : Nat) (v : StatData) :
    Nat → StatData :=
  fun k => if k = i then v else t k

/-- `init_stats` (lines 246–267): populate every slot from the static
table. -/
def init_stats (defs : Nat → StatDef) : Nat → StatData :=
  fun i => (defs i).init

/-- `uint64_t` subtraction with wrap-around. -/
def sub64 (a b : Nat) : Nat := (a % U64MOD + U64MOD - b % U64MOD) % U64MOD

/-- Cross-shard sum of one slot's within-window deltas, as accumulated in
the first loop of `prepare_stats` (lines 347–372). -/
def windowSum (router : RouterStats) (idx : Nat) : Nat :=
  ((List.range router.num_proxies).map
    (fun i => (router.getProxy i).stats_num_within_window idx)).sum % U64MOD

/-- Process-wide inputs `prepare_stats` reads from the host once per
snapshot: the startup-arguments string, `time(nullptr)`, `getpid()`,
`getppid()`, the `getrusage` times, and the `/proc` status file. -/
structure PrepareEnv where
  gStandaloneArgs : String
  now : Nat
  pid : Int
  ppid : Int
  rusage_user : ℚ
  rusage_system : ℚ
  host : HostConf
  procFile : ProcFile

/-- The sequence of writes `prepare_stats` performs between `init_stats`
and its final aggregation loop (lines 335–460): config timestamps,
derived ratios guarded against zero denominators, host-process facts, the
`/proc` record (its return code is ignored), and per-shard fiber gauges
with the duration and queue-notify-period stats averaged over shards. -/
def applySpecials (env : PrepareEnv) (router : RouterStats)
    (t : Nat → StatData) : Nat → StatData :=
  let config_last_success := (List.range router.num_proxies).foldl
    (fun m i =>
      Nat.max m ((router.getProxy i).stats config_last_success_stat).getU64)
    0
  let destinationBatchesSum := windowSum router destination_batches_sum_stat
  let destinationRequestsSum := windowSum router destination_requests_sum_stat
  let outstandingGetReqsTotal :=
    windowSum router outstanding_route_get_reqs_queued_stat
  let outstandingGetReqsHelper :=
    windowSum router outstanding_route_get_reqs_queued_helper_stat
  let outstandingGetWaitTimeSumUs :=
    windowSum router outstanding_route_get_wait_time_sum_us_stat
  let outstandingUpdateReqsTotal :=
    windowSum router outstanding_route_update_reqs_queued_stat
  let outstandingUpdateReqsHelper :=
    windowSum router outstanding_route_update_reqs_queued_helper_stat
  let outstandingUpdateWaitTimeSumUs :=
    windowSum router outstanding_route_update_wait_time_sum_us_stat
  let retransPerKByteSum := windowSum router retrans_per_kbyte_sum_stat
  let retransNumTotal := windowSum router retrans_num_total_stat
  let t := setStat t num_suspect_servers_stat
    (.uint64 (router.suspectServersCount % U64MOD))
  let t := setStat t destination_batch_size_stat
    (.dbl (if destinationBatchesSum ≠ 0 then
      (destinationRequestsSum : ℚ) / destinationBatchesSum else 0))
  let t := setStat t retrans_per_kbyte_avg_stat
    (.dbl (if retransNumTotal ≠ 0 then
      (retransPerKByteSum : ℚ) / retransNumTotal else 0))
  let t := setStat t outstanding_route_get_avg_queue_size_stat
    (.dbl (if outstandingGetReqsTotal > 0 then
      (outstandingGetReqsHelper : ℚ) / outstandingGetReqsTotal else 0))
  let t := setStat t outstanding_route_get_avg_wait_time_sec_stat
    (.dbl (if outstandingGetReqsTotal > 0 then
      (outstandingGetWaitTimeSumUs : ℚ) /
        (1000000 * outstandingGetReqsTotal) else 0))
  let t := setStat t outstanding_route_update_avg_queue_size_stat
    (.dbl (if outstandingUpdateReqsTotal > 0 then
      (outstandingUpdateReqsHelper : ℚ) / outstandingUpdateReqsTotal else 0))
  let t := setStat t outstanding_route_update_avg_wait_time_sec_stat
    (.dbl (if outstandingUpdateReqsTotal > 0 then
      (outstandingUpdateWaitTimeSumUs : ℚ) /
        (1000000 * outstandingUpdateReqsTotal) else 0))
  let t := setStat t commandargs_stat (.string env.gStandaloneArgs)
  let t := setStat t time_stat (.uint64 (env.now % U64MOD))
  let t := setStat t start_time_stat (.uint64 (router.startTime % U64MOD))
  let t := setStat t uptime_stat (.uint64 (sub64 env.now router.startTime))
  let t := setStat t config_age_stat
    (.uint64 (sub64 env.now config_last_success))
  let t := setStat t config_last_success_stat (.uint64 config_last_success)
  let t := setStat t config_last_attempt_stat
    (.uint64 (router.lastConfigAttempt % U64MOD))
  let t := setStat t config_failures_stat
    (.uint64 (router.configFailures % U64MOD))
  let t := setStat t pid_stat (.int64 env.pid)
  let t := setStat t parent_pid_stat (.int64 env.ppid)
  let t := setStat t rusage_user_stat (.dbl env.rusage_user)
  let t := setStat t rusage_system_stat (.dbl env.rusage_system)
  let ps := (get_proc_stat env.host env.procFile).2
  let t := setStat t ps_num_minor_faults_stat (.uint64 ps.num_minor_faults)
  let t := setStat t ps_num_major_faults_stat (.uint64 ps.num_major_faults)
  let t := setStat t ps_user_time_sec_stat (.dbl ps.user_time_sec)
  let t := setStat t ps_system_time_sec_stat (.dbl ps.system_time_sec)
  let t := setStat t ps_rss_stat (.uint64 ps.rss)
  let t := setStat t ps_vsize_stat (.uint64 ps.vsize)
  let t := setStat t fibers_allocated_stat
    (.uint64 (((List.range router.num_proxies).map
      (fun i => (router.getProxy i).fibersAllocated)).sum % U64MOD))
  let t := setStat t fibers_pool_size_stat
    (.uint64 (((List.range router.num_proxies).map
      (fun i => (router.getProxy i).fibersPoolSize)).sum % U64MOD))
  let t := setStat t fibers_stack_high_watermark_stat
    (.uint64 ((List.range router.num_proxies).foldl
      (fun m i => Nat.max m ((router.getProxy i).stackHighWatermark)) 0))
  let t := setStat t duration_us_stat
    (.dbl ((t duration_us_stat).getDbl +
      (((List.range router.num_proxies).map
        (fun i => (router.getProxy i).durationUs)).sum)))
  let t := setStat t client_queue_notify_period_stat
    (.dbl ((t client_queue_notify_period_stat).getDbl +
      (((List.range router.num_proxies).map
        (fun i => (router.getProxy i).queueNotifyPeriod)).sum)))
  if router.num_proxies > 0 then
    let t := setStat t duration_us_stat
      (.dbl ((t duration_us_stat).getDbl / router.num_proxies))
    setStat t client_queue_notify_period_stat
      (.dbl ((t client_queue_notify_period_stat).getDbl /
        router.num_proxies))
  else t

/-- Whether a value kind can be aggregated by the final loop. -/
def stat_is_numeric : StatType → Bool
  | .stat_uint64 => true
  | .stat_int64 => true
  | .stat_double => true
  | .stat_string => false

/-- The final loop of `prepare_stats` hits `LOG(FATAL)` ("you can't
aggregate non-numerical stats!") when some aggregatable non-rate slot is
non-numeric; the snapshot then never materializes. -/
def aggregate_fatal (num_stats : Nat) (defs : Nat → StatDef) : Bool :=
  (List.range num_stats).any (fun i =>
    (defs i).aggregate && ((defs i).group &&& rate_stats == 0) &&
      !stat_is_numeric (defs i).type)

/-- One slot of the final aggregation loop (lines 462–477): add the
slot's value across all shards onto the initialized value, per value
kind.  (The non-numeric case is unreachable: it is guarded by
`aggregate_fatal`.) -/
def aggregate_slot (router : RouterStats) (idx : Nat) (d : StatDef)
    (pre : StatData) : StatData :=
  match d.type with
  | .stat_uint64 => .uint64 ((pre.getU64 +
      ((List.range router.num_proxies).map
        (fun j => ((router.getProxy j).stats idx).getU64)).sum) % U64MOD)
  | .stat_int64 => .int64 (pre.getI64 +
      ((List.range router.num_proxies).map
        (fun j => ((router.getProxy j).stats idx).getI64)).sum)
  | .stat_double => .dbl (pre.getDbl +
      ((List.range router.num_proxies).map
        (fun j => ((router.getProxy j).stats idx).getDbl)).sum)
  | .stat_string => pre

/-- `prepare_stats` (lines 332–478): initialize from the static table,
perform the special writes, then add every aggregatable non-rate slot
across shards (each loop iteration touches only its own slot, so the
final table is given slot-wise).  `none` models the `LOG(FATAL)`
abort. -/
def prepare_stats (num_stats : Nat) (defs : Nat → StatDef)
    (env : PrepareEnv) (router : RouterStats) :
    Option (Nat → StatData) :=
  if aggregate_fatal num_stats defs then none
  else
    let t := applySpecials env router (init_stats defs)
    some (fun i =>
      if i < num_stats && (defs i).aggregate &&
          ((defs i).group &&& rate_stats == 0) then
        aggregate_slot router i (defs i) (t i)
      else t i)

/-! ### The stats query surface (`stats_reply`, lines 502–619) -/

/-- `stat_get_config_age` (lines 269–272). -/
def stat_get_config_age (stats : Nat → StatData) (now : Nat) : Nat :=
  sub64 now (stats config_last_success_stat).getU64

/-- `stat_parse_group_str` (lines 502–530): the fixed token table; the
empty token maps to the default group, anything unrecognized to the
`unknown_stats` sentinel. -/
def stat_parse_group_str (str : String) : Nat :=
  if str = "all" then all_stats
  else if str = "detailed" then detailed_stats
  else if str = "cmd" then cmd_all_stats
  else if str = "cmd-in" then cmd_in_stats
  else if str = "cmd-out" then cmd_out_stats
  else if str = "cmd-error" then cmd_error_stats
  else if str = "ods" then ods_stats
  else if str = "servers" then server_stats
  else if str = "suspect_servers" then suspect_server_stats
  else if str = "count" then count_stats
  else if str = "outlier" then outlier_stats
  else if str = "" then mcproxy_stats
  else unknown_stats

/-- Read `.data.string`. -/
def StatData.getStr : StatData → String
  | .string s => s
  | _ => ""

/-- Stand-in for the `printf("%g")` rendering of a double; numeric
formatting is done by folly/printf outside the files under study. -/
def formatDouble (q : ℚ) : String := toString q

/-- `stat_to_str` (lines 229–244): format a slot per its value kind. -/
def stat_to_str (type : StatType) (v : StatData) : String :=
  match type with
  | .stat_string => v.getStr
  | .stat_uint64 => toString v.getU64
  | .stat_int64 => toString v.getI64
  | .stat_double => formatDouble v.getDbl

/-- `rate_stat_to_str` (lines 207–209). -/
def rate_stat_to_str (binSize : ℚ) (defs : Nat → StatDef)
    (router : RouterStats) (proxy : ProxyStats) (idx : Nat) : String :=
  formatDouble (stats_rate_value binSize defs router proxy idx)

/-- `max_stat_to_str` (lines 211–213). -/
def max_stat_to_str (router : RouterStats) (idx : Nat) : String :=
  toString (stats_max_value router idx)

/-- `max_max_stat_to_str` (lines 215–218). -/
def max_max_stat_to_str (router : RouterStats) (idx : Nat) : String :=
  toString (stats_aggregate_max_max_value router idx)

/-- The destination observations of a server-stats query: every shard's
destinations, visited shard 0 first (lines 574–603). -/
def destObservations (router : RouterStats) : List (String × DestView) :=
  ((List.range router.num_proxies).map
    (fun i => (router.getProxy i).destinations)).flatten

/-- The distinct destination keys, in first-contact order.  (The C++
`unordered_map` iterates its entries in an unspecified order; the claims
considered here do not depend on emission order, which is modelled as
first contact.) -/
def serverKeys (obs : List (String × DestView)) : List String :=
  obs.foldl (fun acc kv => if kv.1 ∈ acc then acc else acc ++ [kv.1]) []

/-- Result of `stats_reply`: the reply's result code and message, the
formatted global name/value pairs, the per-destination snapshots emitted
for the server group (their `ServerStat::toString` rendering is folly
formatting, outside the embedding), the suspect-destination lines, and
whether `prepare_stats` ran (`prepared` traces whether any aggregation
work — snapshot preparation / counter reads — happened). -/
structure StatsReplyOut where
  result : McRes
  message : String
  stats : List (String × String)
  serverStatsOut : List (String × ServerStat)
  suspectOut : List (String × String)
  prepared : Bool

/-- `stats_reply` (lines 535–619).  The `"version"` token returns the
single fixed identity pair before anything else; an unrecognized token
returns the fixed client error before any snapshot is prepared; otherwise
the snapshot is prepared once and every slot whose group intersects the
request is emitted, followed by the optional server and
suspect-destination sections.  `none` models the `LOG(FATAL)` abort of
the aggregation loop. -/
def stats_reply (versionString : String) (binSize : ℚ) (num_stats : Nat)
    (defs : Nat → StatDef) (env : PrepareEnv) (router : RouterStats)
    (proxy : ProxyStats) (group_str : String) : Option StatsReplyOut :=
  if group_str = "version" then
    some { result := .ok, message := ""
           stats := [("mcrouter-version", versionString)]
           serverStatsOut := [], suspectOut := [], prepared := false }
  else
    let groups := stat_parse_group_str group_str
    if groups = unknown_stats then
      some { result := .client_error, message := "bad stats command"
             stats := [], serverStatsOut := [], suspectOut := []
             prepared := false }
    else
      match prepare_stats num_stats defs env router with
      | none => none
      | some t =>
        let pairs := (List.range num_stats).filterMap (fun ii =>
          let d := defs ii
          if d.group &&& groups ≠ 0 then
            some (d.name,
              if d.group &&& rate_stats ≠ 0 then
                rate_stat_to_str binSize defs router proxy ii
              else if d.group &&& max_stats ≠ 0 then
                max_stat_to_str router ii
              else if d.group &&& max_max_stats ≠ 0 then
                max_max_stat_to_str router ii
              else stat_to_str d.type (t ii))
          else none)
        let sOut :=
          if groups &&& server_stats ≠ 0 then
            let obs := destObservations router
            (serverKeys obs).map (fun k => (k, buildServerStats obs k))
          else []
        let susp :=
          if groups &&& suspect_server_stats ≠ 0 then
            router.suspectServers.map (fun kv =>
              (kv.1, "status:" ++ (if kv.2.1 then "tko" else "down") ++
                     " num_failures:" ++ toString kv.2.2))
          else []
        some { result := .ok, message := "", stats := pairs
               serverStatsOut := sOut, suspectOut := susp
               prepared := true }

/-! ### Spec-side comparison definitions and concrete fixtures -/

/-- Definition following the spec's words for the max policy
("`maxBinValue` taken as the maximum across shards"): each shard's
maximum single retained bin value, maximized across shards.  Compared
against `stats_aggregate_max_value`, which the source computes
differently. -/
def spec_max_of_shard_maxes (router : RouterStats) (idx : Nat) : Nat :=
  (List.range router.num_proxies).foldl
    (fun m i =>
      Nat.max m ((List.range (router.getProxy i).num_bins_used).foldl
        (fun mm j => Nat.max mm ((router.getProxy i).stats_bin idx j)) 0))
    0

/-- Example result classifier standing for `mc_res_is_err`. -/
def exIsErr : McRes → Bool := fun r => r != McRes.ok

/-- A proxy view that is not being torn down. -/
def exProxyView : ProxyCtxView := ⟨false, true, ReplyStats.zero⟩

/-- A fresh context holding a valid generic request. -/
def exCtxFresh : Ctx := ⟨false, false, some (.generic true), exProxyView, []⟩

/-- A context that has already replied. -/
def exCtxReplied : Ctx := { exCtxFresh with replied := true }

/-- A fresh context whose proxy is being destroyed. -/
def exCtxTeardown : Ctx :=
  { exCtxFresh with proxy := { exProxyView with being_destroyed := true } }

/-- A shard with the given bin contents at slot 0 and the given used-bin
count; everything else empty. -/
def mkBinProxy (bins : Nat → Nat) (nbu : Nat) : ProxyStats :=
  ⟨fun _ => .uint64 0, fun _ => 0, fun idx j => if idx = 0 then bins j else 0,
   nbu, 0, 0, 0, 0, 0, []⟩

/-- Two shards that recorded `a` into bin 0 on shard `S` and `b` into
bin 1 on shard `T`, with two rotated bins. -/
def twoShardDistinctBins (a b : Nat) : RouterStats :=
  ⟨[mkBinProxy (fun j => if j = 0 then a else 0) 2,
    mkBinProxy (fun j => if j = 1 then b else 0) 2], 0, [], 0, 0, 0⟩

/-- Two shards that recorded `1` (shard `S`) and `2` (shard `T`) into the
**same** bin 0. -/
def twoShardSameBin : RouterStats :=
  ⟨[mkBinProxy (fun j => if j = 0 then 1 else 0) 1,
    mkBinProxy (fun j => if j = 0 then 2 else 0) 1], 0, [], 0, 0, 0⟩

/-- A router with no shards at all (`get_num_bins_used` is 0). -/
def exEmptyRouter : RouterStats := ⟨[], 0, [], 0, 0, 0⟩

/-- A shard that has not rotated any bin yet but has a nonzero
within-window delta. -/
def exUnrotatedProxy : ProxyStats :=
  ⟨fun _ => .uint64 0, fun _ => 100, fun _ _ => 0, 0, 0, 0, 0, 0, 0, []⟩

/-- A one-slot static table: a plain aggregatable `uint64` counter. -/
def exDefs : Nat → StatDef :=
  fun _ => ⟨"example_counter", 0, .stat_uint64, false, .uint64 0⟩

/-- A static table whose every slot is a plain aggregatable `uint64`
counter initialized to 0. -/
def exDefsAgg : Nat → StatDef :=
  fun _ => ⟨"example_counter", 0, .stat_uint64, true, .uint64 0⟩

/-- Example host configuration (100 ticks/s, 4096-byte pages). -/
def exHost : HostConf := ⟨100, 4096⟩

/-- A `/proc` status file that cannot be opened. -/
def exNoFile : ProcFile := ⟨false, []⟩

/-- A `/proc` status file where only one field (value 7) converts. -/
def exShortFile : ProcFile := ⟨true, [7]⟩

/-- A process environment whose `/proc` file cannot be opened. -/
def exEnv : PrepareEnv := ⟨"", 0, 0, 0, 0, 0, exHost, exNoFile⟩

/-- A process environment whose `/proc` file short-parses one field. -/
def exEnvShort : PrepareEnv := ⟨"", 0, 0, 0, 0, 0, exHost, exShortFile⟩

/-- A shard whose slot 1 counter holds `v`; everything else empty. -/
def exProxyVal (v : Nat) : ProxyStats :=
  ⟨fun idx => .uint64 (if idx = 1 then v else 0), fun _ => 0, fun _ _ => 0,
   0, 0, 0, 0, 0, 0, []⟩

/-- Two shards holding 5 and 7 in their slot-1 counters. -/
def exRouterC7 : RouterStats := ⟨[exProxyVal 5, exProxyVal 7], 0, [], 0, 0, 0⟩

/-- A shard that only contributes destination observations. -/
def mkDestProxy (dests : List (String × DestView)) : ProxyStats :=
  ⟨fun _ => .uint64 0, fun _ => 0, fun _ _ => 0, 0, 0, 0, 0, 0, 0, dests⟩

/-- A destination view that is hard- and soft-knocked-out. -/
def exViewHard : DestView := ⟨true, true, none, 0, none, -1, 0, 0⟩

/-- A destination view with both knockout flags clear. -/
def exViewClear : DestView := ⟨false, false, none, 0, none, -1, 0, 0⟩

/-- Two shards contacting the same destination `"d"`: shard 0 sees it
knocked out, shard 1 does not. -/
def exRouterC1 : RouterStats :=
  ⟨[mkDestProxy [("d", exViewHard)], mkDestProxy [("d", exViewClear)]],
   0, [], 0, 0, 0⟩

/-- The destination observations of `exRouterC1` in visit order. -/
def exObsC1 : List (String × DestView) := destObservations exRouterC1

/-! ### Theorems settling the claims -/

/-- C3: for every request context, `sendReply` has observable effect at
most once: an invocation after `replied` is already `true`, and an
invocation while the context is in recording mode, leaves the context
(callback trace, counters, stored request) entirely unchanged, and a
second invocation after any first one is a no-op. -/
theorem C3_sendReply_at_most_once (isErr : McRes → Bool) (c : Ctx)
    (r r' : McRes) :
    (c.replied = true ∨ c.recording = true → sendReply isErr c r = c) ∧
    sendReply isErr (sendReply isErr c r) r' = sendReply isErr c r := by
  constructor
  · rintro (h | h) <;> simp [sendReply, h]
  · by_cases hrec : c.recording <;> by_cases hrep : c.replied <;>
      simp [sendReply, hrec, hrep]

/-- C3 witness: on a concrete already-replied context the no-op
guarantee applies. -/
theorem C3_witness :
    sendReply exIsErr exCtxReplied .ok = exCtxReplied :=
  (C3_sendReply_at_most_once exIsErr exCtxReplied .ok .ok).1 (Or.inl rfl)

/-- C4: on the first effective `sendReply` with result `r`, the
total-replied counter pair increments, and exactly one of the
error-counter pair / success-counter pair increments (by 1 each),
according to whether `r` is classified as an error. -/
theorem C4_first_reply_classification (isErr : McRes → Bool) (c : Ctx)
    (r : McRes) (hrec : c.recording = false) (hrep : c.replied = false) :
    let s := c.proxy.stats
    let s' := (sendReply isErr c r).proxy.stats
    s'.request_replied = s.request_replied + 1 ∧
    s'.request_replied_count = s.request_replied_count + 1 ∧
    (isErr r = true →
      s'.request_error = s.request_error + 1 ∧
      s'.request_error_count = s.request_error_count + 1 ∧
      s'.request_success = s.request_success ∧
      s'.request_success_count = s.request_success_count) ∧
    (isErr r = false →
      s'.request_error = s.request_error ∧
      s'.request_error_count = s.request_error_count ∧
      s'.request_success = s.request_success + 1 ∧
      s'.request_success_count = s.request_success_count + 1) := by
  by_cases h : isErr r <;> simp [sendReply, hrec, hrep, h]

/-- C4 witness: a fresh context replying with a non-error result
increments exactly the success pair. -/
theorem C4_witness :
    let s := exCtxFresh.proxy.stats
    let s' := (sendReply exIsErr exCtxFresh .ok).proxy.stats
    s'.request_replied = s.request_replied + 1 ∧
    s'.request_replied_count = s.request_replied_count + 1 ∧
    (exIsErr .ok = true →
      s'.request_error = s.request_error + 1 ∧
      s'.request_error_count = s.request_error_count + 1 ∧
      s'.request_success = s.request_success ∧
      s'.request_success_count = s.request_success_count) ∧
    (exIsErr .ok = false →
      s'.request_error = s.request_error ∧
      s'.request_error_count = s.request_error_count ∧
      s'.request_success = s.request_success + 1 ∧
      s'.request_success_count = s.request_success_count + 1) :=
  C4_first_reply_classification exIsErr exCtxFresh .ok rfl rfl

/-- Helper: when the precheck succeeds it leaves the context
untouched. -/
theorem precheckRequest_ok_eq (isErr : McRes → Bool) (c : Ctx)
    (req : RequestKind) (h : (precheckRequest isErr c req).2 = true) :
    (precheckRequest isErr c req).1 = c := by
  cases req with
  | generic keyValid =>
      by_cases hk : keyValid <;> simp [precheckRequest, hk] at h ⊢
  | statsReq => rfl
  | versionReq => rfl
  | shutdownReq => simp [precheckRequest] at h
  | flushReReq => simp [precheckRequest] at h
  | flushAllReq =>
      by_cases hf : c.proxy.enable_flush_cmd <;>
        simp [precheckRequest, hf] at h ⊢

/-- C8: a request whose precheck succeeds while the proxy is being
destroyed is replied exactly once with the fixed `mc_res_unknown` code
and is never handed to `dispatchRequest`. -/
theorem C8_teardown_unknown_no_dispatch (isErr : McRes → Bool) (c : Ctx)
    (req : RequestKind) (hreq : c.req = some req)
    (hpre : (precheckRequest isErr c req).2 = true)
    (hdes : c.proxy.being_destroyed = true)
    (hrec : c.recording = false) (hrep : c.replied = false) :
    (startProcessing isErr c).2 = false ∧
    (startProcessing isErr c).1.sentReplies = c.sentReplies ++ [.unknown] ∧
    (startProcessing isErr c).1.replied = true := by
  have hco := precheckRequest_ok_eq isErr c req hpre
  simp only [startProcessing, hreq]
  rw [show (precheckRequest isErr c req) = (c, true) by
    cases h : precheckRequest isErr c req
    simp only [h] at hco hpre
    simp [hco, hpre]]
  simp [hdes, sendReply, hrec, hrep]

/-- C8 witness: a concrete fresh valid request on a tearing-down proxy. -/
theorem C8_witness :
    (startProcessing exIsErr exCtxTeardown).2 = false ∧
    (startProcessing exIsErr exCtxTeardown).1.sentReplies =
      exCtxTeardown.sentReplies ++ [.unknown] ∧
    (startProcessing exIsErr exCtxTeardown).1.replied = true :=
  C8_teardown_unknown_no_dispatch exIsErr exCtxTeardown (.generic true)
    rfl rfl rfl rfl rfl

/-- C9: a stats query with token `"version"` returns exactly one
name/value pair, named `"mcrouter-version"` with the fixed build string,
with no snapshot prepared — for every counter state (the reply is a
constant in `defs`, `env`, `router`, `proxy`). -/
theorem C9_version_single_pair (versionString : String) (binSize : ℚ)
    (num_stats : Nat) (defs : Nat → StatDef) (env : PrepareEnv)
    (router : RouterStats) (proxy : ProxyStats) :
    stats_reply versionString binSize num_stats defs env router proxy
        "version" =
      some { result := .ok, message := ""
             stats := [("mcrouter-version", versionString)]
             serverStatsOut := [], suspectOut := [], prepared := false } := by
  simp [stats_reply]

/-- C6: before any bin has rotated (used-bin count zero, both on the
queried shard and router-wide), the reported per-shard and aggregated
rates are exactly `0`; the division is never reached. -/
theorem C6_rate_zero_before_rotation (binSize : ℚ) (defs : Nat → StatDef)
    (router : RouterStats) (proxy : ProxyStats) (idx : Nat)
    (h1 : proxy.num_bins_used = 0) (h2 : get_num_bins_used router = 0) :
    stats_rate_value binSize defs router proxy idx = 0 ∧
    stats_aggregate_rate_value binSize router idx = 0 := by
  constructor
  · simp [stats_rate_value, h1]
  · simp [stats_aggregate_rate_value, h2]

/-- C6 witness: a shard with 100 pending within-window deltas but no
rotated bin reports rate 0. -/
theorem C6_witness :
    stats_rate_value 1 exDefs exEmptyRouter exUnrotatedProxy 0 = 0 ∧
    stats_aggregate_rate_value 1 exEmptyRouter 0 = 0 :=
  C6_rate_zero_before_rotation 1 exDefs exEmptyRouter exUnrotatedProxy 0
    rfl rfl

/-- C5: every category token that is neither `"version"` nor one of the
recognized group tokens (the empty token included, since it maps to the
default group) yields the fixed client-error reply, with no snapshot
prepared and no counter read — the reply is a constant, independent of
`defs`, `env`, `router` and `proxy`. -/
theorem C5_unrecognized_token_client_error (versionString : String)
    (binSize : ℚ) (num_stats : Nat) (defs : Nat → StatDef)
    (env : PrepareEnv) (router : RouterStats) (proxy : ProxyStats)
    (g : String)
    (h : g ∉ ["version", "all", "detailed", "cmd", "cmd-in", "cmd-out",
              "cmd-error", "ods", "servers", "suspect_servers", "count",
              "outlier", ""]) :
    stats_reply versionString binSize num_stats defs env router proxy g =
      some { result := .client_error, message := "bad stats command"
             stats := [], serverStatsOut := [], suspectOut := []
             prepared := false } := by
  simp only [List.mem_cons, List.not_mem_nil, or_false, not_or] at h
  obtain ⟨h1, h2, h3, h4, h5, h6, h7, h8, h9, h10, h11, h12, h13⟩ := h
  simp [stats_reply, stat_parse_group_str,
    h1, h2, h3, h4, h5, h6, h7, h8, h9, h10, h11, h12, h13]

/-- C5 witness: the token `"bogus"` gets the fixed client error. -/
theorem C5_witness :
    stats_reply "v" 1 0 exDefs exEnv exEmptyRouter (mkDestProxy []) "bogus" =
      some { result := .client_error, message := "bad stats command"
             stats := [], serverStatsOut := [], suspectOut := []
             prepared := false } :=
  C5_unrecognized_token_client_error "v" 1 0 exDefs exEnv exEmptyRouter
    (mkDestProxy []) "bogus" (by decide)

/-- C2 counterexample: recording 1 and 2 into the *same* bin on two
shards makes the max-policy aggregate 3 (the per-bin cross-shard sum),
while the maximum across shards of each shard's maximum bin value is 2 —
so the aggregate is not the max-of-shard-maxes and recording `a` and
`b > a` need not yield `b`. -/
theorem C2_counterexample :
    stats_aggregate_max_value twoShardSameBin 0 = 3 ∧
    spec_max_of_shard_maxes twoShardSameBin 0 = 2 := by decide

/-- C2 (amended): the max-policy aggregate is the maximum over bins of
the per-bin cross-shard sum; when `a` and `b` are recorded into
*different* bins on two shards it equals `max a b` (hence `b` when
`b > a`), and the max-of-max policy also yields `max a b` there. -/
theorem C2_distinct_bins_max (a b : Nat) (ha : a < U64MOD)
    (hb : b < U64MOD) :
    stats_aggregate_max_value (twoShardDistinctBins a b) 0 = Nat.max a b ∧
    stats_aggregate_max_max_value (twoShardDistinctBins a b) 0 =
      Nat.max a b := by
  have h2 : List.range 2 = [0, 1] := by decide
  constructor <;>
    simp [stats_aggregate_max_value, stats_aggregate_max_max_value,
      twoShardDistinctBins, mkBinProxy, get_num_bins_used,
      RouterStats.getProxy, RouterStats.num_proxies, h2,
      Nat.mod_eq_of_lt ha, Nat.mod_eq_of_lt hb]

/-- C2 witness: `a = 1` on shard `S` (bin 0) and `b = 2` on shard `T`
(bin 1) aggregate to `2 = max 1 2`. -/
theorem C2_witness :
    stats_aggregate_max_value (twoShardDistinctBins 1 2) 0 = Nat.max 1 2 ∧
    stats_aggregate_max_max_value (twoShardDistinctBins 1 2) 0 =
      Nat.max 1 2 :=
  C2_distinct_bins_max 1 2 (by decide) (by decide)

/-- C1 counterexample: destination `"d"` is contacted from two shards —
shard 0 sees both knockout flags set, shard 1 sees both clear.  The
server-stats query reports both flags `false`, while the OR of the
shards' views is `true` for both. -/
theorem C1_counterexample :
    ((stats_reply "v" 1 0 exDefs exEnv exRouterC1 (mkDestProxy [])
        "servers").map
      (fun o => o.serverStatsOut.map
        (fun kv => (kv.1, kv.2.isHardTko, kv.2.isSoftTko)))) =
      some [("d", false, false)] ∧
    (exObsC1.map (fun kv => kv.2.isHardTko)).any id = true ∧
    (exObsC1.map (fun kv => kv.2.isSoftTko)).any id = true := by decide

/-- Helper: one fold step assigns the knockout flags from the incoming
view, regardless of the accumulator. -/
theorem ServerStat.update_tko (s : ServerStat) (v : DestView) :
    (s.update v).isHardTko = v.isHardTko ∧
    (s.update v).isSoftTko = v.isSoftTko := by
  cases hr : v.results <;> cases ha : v.avgLatency <;>
    by_cases hq : v.retransPerKByte ≥ 0 <;>
      simp [ServerStat.update, ServerStat.minRetrans, hr, ha, hq]

/-- Helper: a projection that each `update` step overwrites from the view
ends up holding the last view's value (or the start's, on no views). -/
theorem foldl_update_last (f : ServerStat → Bool) (g : DestView → Bool)
    (hfg : ∀ (s : ServerStat) (v : DestView), f (ServerStat.update s v) = g v)
    (vs : List DestView) (s : ServerStat) :
    f (vs.foldl ServerStat.update s) = (vs.getLast?.map g).getD (f s) := by
  induction vs generalizing s with
  | nil => rfl
  | cons v vs ih =>
      cases vs with
      | nil => simp [hfg]
      | cons w ws =>
          rw [List.foldl_cons, ih, List.getLast?_cons_cons]
          cases h : (w :: ws).getLast? with
          | none => simp [List.getLast?_eq_none_iff] at h
          | some x => simp

/-- Helper: the per-destination fold at key `k` only sees the
observations for `k`, in order. -/
theorem buildServerStats_filter (obs : List (String × DestView))
    (k : String) :
    buildServerStats obs k =
      ((obs.filter (fun kv => kv.1 = k)).map (fun kv => kv.2)).foldl
        ServerStat.update ServerStat.empty := by
  suffices h : ∀ (m : String → ServerStat),
      (obs.foldl
        (fun m kv => fun k' =>
          if k' = kv.1 then (m kv.1).update kv.2 else m k') m) k =
      ((obs.filter (fun kv => kv.1 = k)).map (fun kv => kv.2)).foldl
        ServerStat.update (m k) by
    exact h _
  induction obs with
  | nil => intro m; rfl
  | cons kv obs ih =>
      intro m
      by_cases hk : kv.1 = k
      · subst hk
        simp only [List.foldl_cons, List.filter_cons, decide_True,
          List.map_cons]
        rw [ih]
        simp
      · have hk' : ¬(k = kv.1) := fun h => hk h.symm
        simp only [List.foldl_cons, List.filter_cons]
        rw [ih]
        simp [hk, hk']

/-- C1 (amended): for a destination contacted from several shards, the
aggregated hard/soft-knockout flags equal the **last-visited** shard's
view of that destination (each shard's visit overwrites the flags), not
the OR of all views; the OR is only obtained when every shard sees the
same value. -/
theorem C1_last_shard_view_wins (obs : List (String × DestView))
    (k : String) (h : obs.filter (fun kv => kv.1 = k) ≠ []) :
    ((obs.filter (fun kv => kv.1 = k)).getLast?.map
        (fun kv => (kv.2.isHardTko, kv.2.isSoftTko))) =
      some ((buildServerStats obs k).isHardTko,
            (buildServerStats obs k).isSoftTko) := by
  rw [buildServerStats_filter]
  rw [foldl_update_last (fun s => s.isHardTko) (fun v => v.isHardTko)
    (fun s v => (ServerStat.update_tko s v).1)]
  rw [foldl_update_last (fun s => s.isSoftTko) (fun v => v.isSoftTko)
    (fun s v => (ServerStat.update_tko s v).2)]
  rw [List.getLast?_map]
  cases hl : (obs.filter (fun kv => kv.1 = k)).getLast? with
  | none =>
      rw [List.getLast?_eq_none_iff] at hl
      exact absurd hl h
  | some p => simp

/-- C1 amended-claim witness: in the concrete two-shard scenario the
aggregate equals shard 1's (the last) view. -/
theorem C1_witness :
    ((exObsC1.filter (fun kv => kv.1 = "d")).getLast?.map
        (fun kv => (kv.2.isHardTko, kv.2.isSoftTko))) =
      some ((buildServerStats exObsC1 "d").isHardTko,
            (buildServerStats exObsC1 "d").isSoftTko) :=
  C1_last_shard_view_wins exObsC1 "d" (by decide)

/-- Helper: the special writes of `prepare_stats` leave every slot
outside `specialAssignedIds` untouched. -/
theorem applySpecials_preserves (env : PrepareEnv) (router : RouterStats)
    (t : Nat → StatData) (i : Nat) (h : i ∉ specialAssignedIds) :
    applySpecials env router t i = t i := by
  simp only [specialAssignedIds, List.mem_cons, List.not_mem_nil,
    or_false, not_or] at h
  obtain ⟨h1, h2, h3, h4, h5, h6, h7, h8, h9, h10, h11, h12, h13, h14,
    h15, h16, h17, h18, h19, h20, h21, h22, h23, h24, h25, h26, h27,
    h28, h29, h30⟩ := h
  by_cases hn : router.num_proxies > 0 <;>
    simp [applySpecials, setStat, hn, h1, h2, h3, h4, h5, h6, h7, h8, h9,
      h10, h11, h12, h13, h14, h15, h16, h17, h18, h19, h20, h21, h22,
      h23, h24, h25, h26, h27, h28, h29, h30]

/-- C7: for an aggregatable non-rate `uint64` slot that `prepare_stats`
does not special-case, the prepared snapshot holds the slot's initial
value plus the sum of the slot's value across all shards (here without
wrap-around, under the in-range hypothesis). -/
theorem C7_sum_policy_aggregation (num_stats : Nat) (defs : Nat → StatDef)
    (env : PrepareEnv) (router : RouterStats) (i v0 : Nat)
    (hfatal : aggregate_fatal num_stats defs = false)
    (hi : i < num_stats)
    (hns : i ∉ specialAssignedIds)
    (hagg : (defs i).aggregate = true)
    (hrate : (defs i).group &&& rate_stats = 0)
    (htype : (defs i).type = .stat_uint64)
    (hinit : (defs i).init = .uint64 v0)
    (hlt : v0 + ((List.range router.num_proxies).map
        (fun j => ((router.getProxy j).stats i).getU64)).sum < U64MOD) :
    (prepare_stats num_stats defs env router).map (fun t => t i) =
      some (.uint64 (v0 + ((List.range router.num_proxies).map
        (fun j => ((router.getProxy j).stats i).getU64)).sum)) := by
  have hpre := applySpecials_preserves env router (init_stats defs) i hns
  simp [prepare_stats, hfatal, hi, hagg, hrate, aggregate_slot, htype,
    hpre, init_stats, hinit, StatData.getU64]
  exact Nat.mod_eq_of_lt hlt

/-- C7 witness: incrementing the slot-1 counter by 5 on shard `S` and 7
on shard `T` and preparing a snapshot yields 12. -/
theorem C7_witness :
    (prepare_stats 2 exDefsAgg exEnv exRouterC7).map (fun t => t 1) =
      some (.uint64 12) :=
  C7_sum_policy_aggregation 2 exDefsAgg exEnv exRouterC7 1 0 (by decide)
    (by decide) (by decide) rfl rfl rfl rfl (by decide)

/-- C10 counterexample: when the `/proc` file opens but only one field
(value 7) converts, `get_proc_stat` fails with `-1` yet leaves the
already-assigned minor-fault field at 7, and the prepared snapshot
reports 7 — not zero — for the minor-page-fault stat. -/
theorem C10_counterexample :
    (get_proc_stat exHost exShortFile).1 = -1 ∧
    (get_proc_stat exHost exShortFile).2.num_minor_faults = 7 ∧
    (prepare_stats 40 exDefs exEnvShort exEmptyRouter).map
      (fun t => t ps_num_minor_faults_stat) = some (.uint64 7) := by
  decide

/-- C10 (amended): every field of the process-stat record is initialized
to zero before the read is attempted, so when the file cannot be opened
the snapshot reports all six process stats as exactly zero; when fewer
than six fields convert the call still fails with `-1` and every field
**not assigned** by the partial parse reports zero (assigned leading
fields keep their parsed values). -/
theorem C10_proc_failure_zeros (num_stats : Nat) (defs : Nat → StatDef)
    (env : PrepareEnv) (router : RouterStats) (host : HostConf)
    (file : ProcFile)
    (hfatal : aggregate_fatal num_stats defs = false)
    (ha1 : (defs ps_num_minor_faults_stat).aggregate = false)
    (ha2 : (defs ps_num_major_faults_stat).aggregate = false)
    (ha3 : (defs ps_user_time_sec_stat).aggregate = false)
    (ha4 : (defs ps_system_time_sec_stat).aggregate = false)
    (ha5 : (defs ps_rss_stat).aggregate = false)
    (ha6 : (defs ps_vsize_stat).aggregate = false)
    (hopen : env.procFile.openable = false)
    (hshort : file.openable = true) (hlen : file.assigned.length < 6) :
    ((prepare_stats num_stats defs env router).map (fun t =>
        (t ps_num_minor_faults_stat, t ps_num_major_faults_stat,
         t ps_user_time_sec_stat, t ps_system_time_sec_stat,
         t ps_rss_stat, t ps_vsize_stat)) =
      some (.uint64 0, .uint64 0, .dbl 0, .dbl 0, .uint64 0, .uint64 0)) ∧
    ((get_proc_stat host file).1 = -1 ∧
     (get_proc_stat host file).2.user_time_sec = 0 ∧
     (get_proc_stat host file).2.system_time_sec = 0 ∧
     (get_proc_stat host file).2.rss = 0 ∧
     (file.assigned.length ≤ 4 → (get_proc_stat host file).2.vsize = 0) ∧
     (file.assigned.length ≤ 1 →
        (get_proc_stat host file).2.num_major_faults = 0) ∧
     (file.assigned.length = 0 →
        (get_proc_stat host file).2.num_minor_faults = 0)) := by
  constructor
  · have hps : get_proc_stat env.host env.procFile =
        (-1, ProcStatData.zero) := by
      simp [get_proc_stat, hopen]
    have hb1 : (defs 29).aggregate = false := ha1
    have hb2 : (defs 30).aggregate = false := ha2
    have hb3 : (defs 31).aggregate = false := ha3
    have hb4 : (defs 32).aggregate = false := ha4
    have hb5 : (defs 33).aggregate = false := ha5
    have hb6 : (defs 34).aggregate = false := ha6
    by_cases hn : router.num_proxies > 0 <;>
      simp [prepare_stats, hfatal, hb1, hb2, hb3, hb4, hb5, hb6,
        applySpecials, setStat, hps, ProcStatData.zero, hn,
        ps_num_minor_faults_stat, ps_num_major_faults_stat,
        ps_user_time_sec_stat, ps_system_time_sec_stat, ps_rss_stat,
        ps_vsize_stat, fibers_allocated_stat, fibers_pool_size_stat,
        fibers_stack_high_watermark_stat, duration_us_stat,
        client_queue_notify_period_stat]
  · have hmin : ¬(min file.assigned.length 6 = 6) := by omega
    refine ⟨?_, ?_, ?_, ?_, ?_, ?_, ?_⟩ <;>
      simp [get_proc_stat, hshort, hmin, ProcStatData.zero]
    · intro h4
      exact fun h => absurd h (by omega)
    · intro h1
      exact fun h => absurd h (by omega)
    · intro h0
      exact fun h => absurd h (by simp [h0])

/-- C10 amended-claim witness: an unopenable `/proc` file yields an
all-zero snapshot, and a one-field parse fails with the unassigned
fields zero. -/
theorem C10_witness :
    ((prepare_stats 40 exDefs exEnv exEmptyRouter).map (fun t =>
        (t ps_num_minor_faults_stat, t ps_num_major_faults_stat,
         t ps_user_time_sec_stat, t ps_system_time_sec_stat,
         t ps_rss_stat, t ps_vsize_stat)) =
      some (.uint64 0, .uint64 0, .dbl 0, .dbl 0, .uint64 0, .uint64 0)) ∧
    ((get_proc_stat exHost exShortFile).1 = -1 ∧
     (get_proc_stat exHost exShortFile).2.user_time_sec = 0 ∧
     (get_proc_stat exHost exShortFile).2.system_time_sec = 0 ∧
     (get_proc_stat exHost exShortFile).2.rss = 0 ∧
     (exShortFile.assigned.length ≤ 4 →
        (get_proc_stat exHost exShortFile).2.vsize = 0) ∧
     (exShortFile.assigned.length ≤ 1 →
        (get_proc_stat exHost exShortFile).2.num_major_faults = 0) ∧
     (exShortFile.assigned.length = 0 →
        (get_proc_stat exHost exShortFile).2.num_minor_faults = 0)) :=
  C10_proc_failure_zeros 40 exDefs exEnv exEmptyRouter exHost exShortFile
    (by decide) rfl rfl rfl rfl rfl rfl rfl rfl (by decide)

end Mcrouter
